import Mathlib

/-!
Verification development for the city-school-backend authentication core.

The definitions below are a shallow embedding of the repository's code:
the Mongoose `User` model with its diff-triggered pre-save password
hashing hook (`src/models/User.ts`), the auth controllers
(`src/controllers/v1/auth.ts`), the `protect` middleware
(`src/middleware/auth.ts`) and the admin seed script
(`src/scripts/seed-admin.ts`).  External collaborators (bcrypt, jwt,
the document store) are modelled by concrete executable functions that
satisfy the interfaces the code consumes: the bcrypt collaborator as a
deterministic tagged digest with `compare p d = (d = hash p)`, the jwt
collaborator as a structure carrying the claims and the signing secret.
JavaScript string truthiness and `String.split(' ')` are modelled
explicitly, since the middleware's token extraction depends on them.
-/

/-! ## String plumbing (JS semantics used by the code) -/

/-- JS truthiness of an optional string field: `undefined` and `""` are falsy. -/
def jsTruthyStr : Option String → Bool
  | none => false
  | some s => s != ""

/-- Split a character list at every occurrence of `sep`, keeping empty pieces,
like JS `String.split`. -/
def splitOnChar (sep : Char) : List Char → List (List Char)
  | [] => [[]]
  | c :: rest =>
    if c == sep then [] :: splitOnChar sep rest
    else
      match splitOnChar sep rest with
      | [] => [[c]]
      | s :: ss => (c :: s) :: ss

/-- JS `s.split(sep)` on strings. -/
def jsSplit (s : String) (sep : Char) : List String :=
  (splitOnChar sep s.toList).map (fun cs => String.mk cs)

/-- JS `s.startsWith(p)`. -/
def jsStartsWith (s p : String) : Bool :=
  p.toList.isPrefixOf s.toList

/-! ## The email-shape pattern of the User schema

The schema validates emails against
`/^\w+([\.-]?\w+)*@\w+([\.-]?\w+)*(\.\w{2,3})+$/`. -/

def isWordChar (c : Char) : Bool := c.isAlphanum || c == '_'

def isSepChar (c : Char) : Bool := c == '.' || c == '-'

/-- Continuation of `\w+([\.-]?\w+)*` after an initial word character:
word characters with single separators in between, ending in a word
character. -/
def atomTail : List Char → Bool
  | [] => true
  | c :: rest =>
    if isWordChar c then atomTail rest
    else if isSepChar c then
      match rest with
      | [] => false
      | d :: rest2 => isWordChar d && atomTail rest2
    else false

/-- The language of `\w+([\.-]?\w+)*`. -/
def atomOk : List Char → Bool
  | [] => false
  | c :: rest => isWordChar c && atomTail rest

/-- A dot-delimited segment of the TLD part: 2 or 3 word characters. -/
def segOk23 (s : List Char) : Bool :=
  s.all isWordChar && (s.length == 2 || s.length == 3)

/-- The language of `(\.\w{2,3})+`. -/
def tldOk (cs : List Char) : Bool :=
  match splitOnChar '.' cs with
  | [] :: segs => !segs.isEmpty && segs.all segOk23
  | _ => false

/-- The schema's email regular expression, as a decidable matcher. -/
def emailMatches (s : String) : Bool :=
  match splitOnChar '@' s.toList with
  | [localPart, domain] =>
    atomOk localPart &&
      (List.range (domain.length + 1)).any
        (fun i => atomOk (domain.take i) && tldOk (domain.drop i))
  | _ => false

/-! ## External collaborators: bcrypt and jwt -/

/-- Model of the bcrypt collaborator: a deterministic one-way tagged digest.
`bcrypt.hash` with its generated salt is modelled as prepending a fixed
digest tag; what matters to the code is that digests are recognisable,
distinct from every plaintext, and that `compare` succeeds exactly on the
hashed plaintext. -/
def bcryptHash (p : String) : String := "$2b$10$" ++ p

/-- Model of `bcrypt.compare(entered, digest)`. -/
def bcryptCompare (entered digest : String) : Bool := digest == bcryptHash entered

/-- Claims payload signed into a session token by `getSignedJwtToken`. -/
structure Claims where
  id : Nat
  name : String
  role : String
  tenantId : String
deriving Repr, DecidableEq, Inhabited

/-- Model of a signed jwt: the claims plus the secret used to sign them. -/
structure SignedJwt where
  claims : Claims
  secret : String
deriving Repr, DecidableEq, Inhabited

def jwtSign (c : Claims) (secret : String) : SignedJwt := ⟨c, secret⟩

/-- Model of `jwt.verify` on a structured token: succeeds exactly when the
verification secret matches the signing secret. -/
def jwtVerify (t : SignedJwt) (secret : String) : Option Claims :=
  if t.secret == secret then some t.claims else none

/-! ## The User model and the document store -/

/-- A stored user record (the fields of `UserSchema`). -/
structure User where
  id : Nat
  name : String
  email : String
  role : String
  password : String
  tenantId : String
deriving Repr, DecidableEq, Inhabited

/-- `UserSchema.methods.getSignedJwtToken`: sign id, name, role and tenantId. -/
def getSignedJwtToken (u : User) (secret : String) : SignedJwt :=
  jwtSign { id := u.id, name := u.name, role := u.role, tenantId := u.tenantId } secret

/-- `UserSchema.methods.matchPassword`: compare entered plaintext against the
stored digest. -/
def matchPassword (u : User) (entered : String) : Bool :=
  bcryptCompare entered u.password

/-- The document store: the list of persisted user records. -/
abbrev Store := List User

/-- `User.findOne({ email })`: first record with the given email. -/
def findOne (store : Store) (email : String) : Option User :=
  store.find? (fun u => u.email == email)

/-- `User.findById(id)`. -/
def findById (store : Store) (id : Nat) : Option User :=
  store.find? (fun u => u.id == id)

/-- A fresh id for a newly created record: larger than every stored id. -/
def freshId (store : Store) : Nat :=
  store.foldr (fun u acc => max (u.id + 1) acc) 0

/-- The role enumeration of `UserSchema`. -/
def roleEnum : List String :=
  ["super-admin", "admin", "school_admin", "teacher", "student", "parent"]

/-- Schema validation, run on the in-memory document before the pre-save
hashing hook: required fields non-empty, email shape, role enumeration,
password minimum length 6. -/
def validateFields (u : User) : Bool :=
  u.name != "" && emailMatches u.email && roleEnum.contains u.role &&
    u.password != "" && Nat.ble 6 u.password.length && u.tenantId != ""

/-- An in-memory Mongoose document: the record plus the modified-paths
tracking consulted by `this.isModified('password')`. -/
structure UserDoc where
  user : User
  passwordModified : Bool
deriving Repr, DecidableEq, Inhabited

/-- The `UserSchema.pre('save')` hook: hash the password with bcrypt only if
`this.isModified('password')`, otherwise leave the document untouched. -/
def preSaveHook (d : UserDoc) : User :=
  if d.passwordModified then { d.user with password := bcryptHash d.user.password }
  else d.user

/-- `doc.save()`: validation, then the `UserSchema.pre('save')` hook, then the
write with the unique email index check (replacing the record with the same
id, or appending a new record). -/
def saveDoc (store : Store) (d : UserDoc) : Option (Store × User) :=
  if validateFields d.user then
    if store.any (fun v => v.email == (preSaveHook d).email && v.id != (preSaveHook d).id) then
      none
    else if store.any (fun v => v.id == (preSaveHook d).id) then
      some (store.map (fun v => if v.id == (preSaveHook d).id then preSaveHook d else v),
        preSaveHook d)
    else
      some (store ++ [preSaveHook d], preSaveHook d)
  else none

/-- `User.create({...})`: a fresh document (every path modified) saved; the
role defaults to `student` when absent. -/
def create (store : Store) (name email password role tenantId : Option String) :
    Option (Store × User) :=
  saveDoc store {
    user := {
      id := freshId store,
      name := name.getD "",
      email := email.getD "",
      role := role.getD "student",
      password := password.getD "",
      tenantId := tenantId.getD "" },
    passwordModified := true }

/-! ## Responses, cookies, configuration -/

/-- `ErrorResponse(message, statusCode)` from `utils/errorResponse`. -/
structure ErrorResponse where
  message : String
  statusCode : Nat
deriving Repr, DecidableEq, Inhabited

/-- The configuration read from the environment. -/
structure Config where
  jwtSecret : String
  cookieExpireDays : Nat
  nodeEnv : String
deriving Repr, DecidableEq, Inhabited

/-- A cookie value: either a signed session token or a literal string. -/
inductive CookieValue
  | jwt (t : SignedJwt)
  | lit (s : String)
deriving Repr, DecidableEq, Inhabited

/-- The attributes of a cookie as handed to `res.cookie`; absent attributes
are the express defaults (`secure` off, `sameSite` unset). -/
structure SetCookie where
  name : String
  value : CookieValue
  expires : Nat
  httpOnly : Bool
  secure : Bool
  path : Option String
  sameSite : Option String
deriving Repr, DecidableEq, Inhabited

/-- The response assembled by `sendTokenResponse`: status, cookie, and the
JSON body `{ success: true, token }`. -/
structure TokenResponse where
  status : Nat
  cookie : SetCookie
  success : Bool
  token : SignedJwt
deriving Repr, DecidableEq, Inhabited

/-- `sendTokenResponse(user, statusCode, res)`. -/
def sendTokenResponse (cfg : Config) (now : Nat) (u : User) (statusCode : Nat) :
    TokenResponse :=
  let token := getSignedJwtToken u cfg.jwtSecret
  { status := statusCode,
    cookie := {
      name := "token",
      value := CookieValue.jwt token,
      expires := now + cfg.cookieExpireDays * 24 * 60 * 60 * 1000,
      httpOnly := true,
      secure := cfg.nodeEnv == "production",
      path := some "/",
      sameSite := some "lax" },
    success := true,
    token := token }

/-! ## The auth controllers -/

/-- `register`: destructure the body, `User.create`, then the token response.
A store-level validation failure surfaces as `none` (handled by the error
middleware). -/
def register (cfg : Config) (now : Nat) (store : Store)
    (name email password role tenantId : Option String) :
    Option (Store × TokenResponse) :=
  match create store name email password role tenantId with
  | none => none
  | some (st, u) => some (st, sendTokenResponse cfg now u 200)

inductive LoginResult
  | err (e : ErrorResponse)
  | ok (r : TokenResponse)
deriving Repr, DecidableEq, Inhabited

/-- `login`: presence check, `findOne` by email with the password digest
selected, `matchPassword`, token response.  The second component counts the
store lookups performed. -/
def login (cfg : Config) (now : Nat) (store : Store)
    (email password : Option String) : LoginResult × Nat :=
  if !jsTruthyStr email || !jsTruthyStr password then
    (LoginResult.err { message := "Please provide an email and password", statusCode := 400 }, 0)
  else
    match findOne store (email.getD "") with
    | none => (LoginResult.err { message := "Invalid credentials", statusCode := 401 }, 1)
    | some user =>
      if matchPassword user (password.getD "") then
        (LoginResult.ok (sendTokenResponse cfg now user 200), 1)
      else
        (LoginResult.err { message := "Invalid credentials", statusCode := 401 }, 1)

structure LogoutResponse where
  status : Nat
  cookie : SetCookie
  success : Bool
deriving Repr, DecidableEq, Inhabited

/-- `logout`: a `token` cookie with sentinel value `none`, expiry ten seconds
out, and only `httpOnly` and `path` among the attributes. -/
def logout (now : Nat) : LogoutResponse :=
  { status := 200,
    cookie := {
      name := "token",
      value := CookieValue.lit "none",
      expires := now + 10 * 1000,
      httpOnly := true,
      secure := false,
      path := some "/",
      sameSite := none },
    success := true }

/-- The projection of a user record returned by reads that do not select the
password (`select: false` on the password path). -/
structure PublicUser where
  id : Nat
  name : String
  email : String
  role : String
  tenantId : String
deriving Repr, DecidableEq, Inhabited

def toPublic (u : User) : PublicUser :=
  { id := u.id, name := u.name, email := u.email, role := u.role, tenantId := u.tenantId }

/-- The request body of `updateDetails`; the controller reads only `name`
and `email` from it. -/
structure UpdateBody where
  name : Option String
  email : Option String
  role : Option String
  password : Option String
  tenantId : Option String
deriving Repr, DecidableEq, Inhabited

/-- `runValidators: true` on an update runs validators on the updated paths. -/
def runUpdateValidators (uname uemail : Option String) : Bool :=
  (match uname with | none => true | some s => s != "") &&
    (match uemail with | none => true | some s => emailMatches s)

/-- Application of the `fieldsToUpdate` object to a record: only `name` and
`email` are written; an undefined field is stripped and leaves the stored
value. -/
def applyDetailsUpdate (u : User) (uname uemail : Option String) : User :=
  { u with name := uname.getD u.name, email := uemail.getD u.email }

/-- `User.findByIdAndUpdate(id, fields, { new: true, runValidators: true })`:
undefined fields are stripped, a missing record yields `null` without error,
and the unique email index is enforced at the write. -/
def findByIdAndUpdate (store : Store) (id : Nat) (uname uemail : Option String) :
    Option (Store × Option User) :=
  match findById store id with
  | none => some (store, none)
  | some u =>
    if runUpdateValidators uname uemail then
      if store.any (fun v => v.email == (applyDetailsUpdate u uname uemail).email
          && v.id != (applyDetailsUpdate u uname uemail).id) then none
      else
        some (store.map (fun v => if v.id == id then applyDetailsUpdate u uname uemail else v),
          some (applyDetailsUpdate u uname uemail))
    else none

structure UpdateDetailsResponse where
  status : Nat
  success : Bool
  data : Option PublicUser
deriving Repr, DecidableEq, Inhabited

/-- `updateDetails`: builds `fieldsToUpdate` from `name` and `email` only and
updates the acting user's record. -/
def updateDetails (store : Store) (actingId : Nat) (body : UpdateBody) :
    Option (Store × UpdateDetailsResponse) :=
  match findByIdAndUpdate store actingId body.name body.email with
  | none => none
  | some (st, ou) =>
    some (st, { status := 200, success := true, data := ou.map toPublic })

inductive UpdatePasswordResult
  | err (e : ErrorResponse)
  | nullUserCrash
  | saveError
  | ok (r : TokenResponse)
deriving Repr, DecidableEq, Inhabited

/-- `updatePassword`: fetch the acting user with the digest selected, verify
the current password, assign the new plaintext (marking the path modified
only when the assigned value differs from the in-memory value, as Mongoose
change tracking does), save, and send a fresh token. -/
def updatePassword (cfg : Config) (now : Nat) (store : Store) (actingId : Nat)
    (currentPassword newPassword : String) : UpdatePasswordResult × Store :=
  match findById store actingId with
  | none => (UpdatePasswordResult.nullUserCrash, store)
  | some u =>
    if !matchPassword u currentPassword then
      (UpdatePasswordResult.err { message := "Current password is incorrect", statusCode := 401 }, store)
    else
      match saveDoc store {
          user := { u with password := newPassword },
          passwordModified := newPassword != u.password } with
      | none => (UpdatePasswordResult.saveError, store)
      | some (st, u2) => (UpdatePasswordResult.ok (sendTokenResponse cfg now u2 200), st)

/-! ## The protect middleware -/

/-- The parts of an incoming request read by `protect`. -/
structure ProtectReq where
  authorization : Option String
  cookieToken : Option String
deriving Repr, DecidableEq, Inhabited

/-- The token-extraction block at the top of `protect`: the Authorization
header when present and starting with `Bearer` (taking `split(' ')[1]`),
otherwise the `token` cookie when truthy. -/
def extractToken (req : ProtectReq) : Option String :=
  if jsTruthyStr req.authorization && jsStartsWith (req.authorization.getD "") "Bearer" then
    (jsSplit (req.authorization.getD "") ' ').get? 1
  else if jsTruthyStr req.cookieToken then
    req.cookieToken
  else
    none

inductive ProtectResult
  | err (e : ErrorResponse)
  | ok (user : Option User)
deriving Repr, DecidableEq, Inhabited

/-- `protect`: missing-token check, `jwt.verify` inside try/catch, then the
user lookup attached to the request.  The verifier is the collaborator
`fun t => jwt.verify(t, JWT_SECRET)`; the second component counts store
accesses. -/
def protect (verify : String → Option Claims) (store : Store) (req : ProtectReq) :
    ProtectResult × Nat :=
  let token := extractToken req
  if !jsTruthyStr token then
    (ProtectResult.err { message := "Not authorized to access this route", statusCode := 401 }, 0)
  else
    match verify (token.getD "") with
    | none =>
      (ProtectResult.err { message := "Not authorized to access this route", statusCode := 401 }, 0)
    | some decoded => (ProtectResult.ok (findById store decoded.id), 1)

/-! ## Document operations and the seed script -/

/-- Field assignments on an in-memory document.  An assignment marks the
password path modified only when the value differs from the current one,
mirroring Mongoose change tracking. -/
inductive DocOp
  | setName (s : String)
  | setEmail (s : String)
  | setRole (s : String)
  | setTenantId (s : String)
  | setPassword (s : String)
deriving Repr, DecidableEq

def applyDocOp (d : UserDoc) : DocOp → UserDoc
  | DocOp.setName s => { d with user := { d.user with name := s } }
  | DocOp.setEmail s => { d with user := { d.user with email := s } }
  | DocOp.setRole s => { d with user := { d.user with role := s } }
  | DocOp.setTenantId s => { d with user := { d.user with tenantId := s } }
  | DocOp.setPassword s =>
    { user := { d.user with password := s },
      passwordModified := d.passwordModified || s != d.user.password }

def applyDocOps (d : UserDoc) (ops : List DocOp) : UserDoc :=
  ops.foldl applyDocOp d

/-- A document freshly loaded from the store has no modified paths. -/
def loadDoc (u : User) : UserDoc := { user := u, passwordModified := false }

/-- A string is a digest of the modelled bcrypt collaborator. -/
def isDigest (s : String) : Bool :=
  "$2b$10$".toList.isPrefixOf s.toList

/-- `seedAdmin`: update the existing admin's role and name (leaving the
password untouched), or create the admin. -/
def seedAdmin (store : Store) : Store :=
  match findOne store "admin@cityschool.com" with
  | some u =>
    let d := applyDocOp (applyDocOp (loadDoc u) (DocOp.setRole "super-admin"))
      (DocOp.setName "Super Admin")
    match saveDoc store d with
    | some (st, _) => st
    | none => store
  | none =>
    match create store (some "Super Admin") (some "admin@cityschool.com")
        (some "adminpassword123") (some "super-admin") (some "HQ-GLOBAL") with
    | some (st, _) => st
    | none => store

/-! ## Helper lemmas -/

theorem lt_freshId_of_mem {v : User} : ∀ {store : Store}, v ∈ store → v.id < freshId store := by
  intro store
  induction store with
  | nil => intro h; cases h
  | cons w rest ih =>
    intro h
    simp only [freshId, List.foldr_cons] at *
    rcases List.mem_cons.mp h with rfl | hv
    · omega
    · have := ih hv
      omega

theorem bcryptHash_inj {a b : String} (h : bcryptHash a = bcryptHash b) : a = b := by
  have hd : ("$2b$10$" ++ a).data = ("$2b$10$" ++ b).data := congrArg String.data h
  simp only [String.data_append] at hd
  have := List.append_cancel_left hd
  cases a
  cases b
  exact congrArg String.mk this

theorem bcryptHash_ne_self (p : String) : bcryptHash p ≠ p := by
  intro h
  have hl := congrArg String.length h
  have h7 : ("$2b$10$" : String).length = 7 := rfl
  simp only [bcryptHash, String.length_append, h7] at hl
  omega

theorem isPrefixOf_append_self (l m : List Char) : l.isPrefixOf (l ++ m) = true := by
  induction l with
  | nil => simp
  | cons c rest ih => simp [List.isPrefixOf, ih]

theorem isDigest_bcryptHash (p : String) : isDigest (bcryptHash p) = true := by
  have hdata : (bcryptHash p).data = "$2b$10$".data ++ p.data := by
    simp [bcryptHash, String.data_append]
  show ("$2b$10$".data.isPrefixOf (bcryptHash p).data) = true
  rw [hdata]
  exact isPrefixOf_append_self _ _

theorem emailMatches_ne_empty {e : String} (h : emailMatches e = true) : e ≠ "" := by
  intro he
  rw [he] at h
  exact absurd h (by decide)

theorem saveDoc_some {store : Store} {d : UserDoc} {st : Store} {u : User}
    (h : saveDoc store d = some (st, u)) :
    validateFields d.user = true ∧ u = preSaveHook d ∧
    store.any (fun v => v.email == u.email && v.id != u.id) = false ∧
    ((store.any (fun v => v.id == u.id) = true ∧
        st = store.map (fun v => if v.id == u.id then u else v)) ∨
      (store.any (fun v => v.id == u.id) = false ∧ st = store ++ [u])) := by
  unfold saveDoc at h
  by_cases h1 : validateFields d.user = true
  · rw [if_pos h1] at h
    by_cases h2 : store.any (fun v => v.email == (preSaveHook d).email
        && v.id != (preSaveHook d).id) = true
    · rw [if_pos h2] at h
      cases h
    · rw [if_neg h2] at h
      by_cases h3 : store.any (fun v => v.id == (preSaveHook d).id) = true
      · rw [if_pos h3] at h
        simp only [Option.some.injEq, Prod.mk.injEq] at h
        obtain ⟨hst, hu⟩ := h
        subst hu
        subst hst
        exact ⟨h1, rfl, Bool.eq_false_iff.mpr h2, Or.inl ⟨h3, rfl⟩⟩
      · rw [if_neg h3] at h
        simp only [Option.some.injEq, Prod.mk.injEq] at h
        obtain ⟨hst, hu⟩ := h
        subst hu
        subst hst
        exact ⟨h1, rfl, Bool.eq_false_iff.mpr h2,
          Or.inr ⟨Bool.eq_false_iff.mpr h3, rfl⟩⟩
  · rw [if_neg h1] at h
    cases h

/-! ## Demo configuration used by concrete witnesses -/

def wCfg : Config :=
  { jwtSecret := "s3cr3t", cookieExpireDays := 30, nodeEnv := "development" }

/-! ## Claims -/

/-- C1: For every login with a non-empty email and password, the no-such-user
failure and the digest-comparison failure produce the identical error
response: the same "Invalid credentials" message and the same 401 status. -/
theorem login_failure_indistinguishable (cfg : Config) (now : Nat) (store : Store)
    (e p : String) (he : e ≠ "") (hp : p ≠ "") :
    (findOne store e = none →
      login cfg now store (some e) (some p) =
        (LoginResult.err { message := "Invalid credentials", statusCode := 401 }, 1)) ∧
    (∀ u, findOne store e = some u → matchPassword u p = false →
      login cfg now store (some e) (some p) =
        (LoginResult.err { message := "Invalid credentials", statusCode := 401 }, 1)) := by
  have htre : jsTruthyStr (some e) = true := by simp [jsTruthyStr, he]
  have htrp : jsTruthyStr (some p) = true := by simp [jsTruthyStr, hp]
  constructor
  · intro hf
    simp [login, htre, htrp, hf]
  · intro u hf hm
    simp [login, htre, htrp, hf, hm]

theorem login_failure_indistinguishable_witness :
    login wCfg 0 [] (some "a@b.com") (some "secret1") =
      (LoginResult.err { message := "Invalid credentials", statusCode := 401 }, 1) :=
  (login_failure_indistinguishable wCfg 0 [] "a@b.com" "secret1"
    (by decide) (by decide)).1 (by decide)

/-- C9: A login request with a missing or empty email or password fails
immediately with the 400 "Please provide an email and password" error and
performs no store lookup; when both fields are present and non-empty the
find-by-email lookup is performed exactly once. -/
theorem login_validates_before_lookup :
    (∀ cfg now store email password,
      jsTruthyStr email = false ∨ jsTruthyStr password = false →
      login cfg now store email password =
        (LoginResult.err { message := "Please provide an email and password", statusCode := 400 },
          0)) ∧
    (∀ cfg now store email password,
      jsTruthyStr email = true → jsTruthyStr password = true →
      (login cfg now store email password).snd = 1) := by
  constructor
  · intro cfg now store email password h
    rcases h with h | h <;> simp [login, h]
  · intro cfg now store email password he hp
    rcases hfo : findOne store (email.getD "") with _ | u
    · simp [login, he, hp, hfo]
    · cases hm : matchPassword u (password.getD "") <;> simp [login, he, hp, hfo, hm]

theorem login_validates_before_lookup_witness :
    login wCfg 0 [] none (some "secret1") =
      (LoginResult.err { message := "Please provide an email and password", statusCode := 400 },
        0) :=
  login_validates_before_lookup.1 wCfg 0 [] none (some "secret1") (Or.inl (by decide))

/-- C2: protect derives the token from the Authorization header when present
and starting with Bearer, otherwise from the token cookie; when neither
yields a truthy token it fails with the generic "Not authorized" 401 error
and zero store accesses, and every token-verification failure yields that
very same error, also before any store access. -/
theorem protect_token_extraction_and_generic_failure :
    (∀ req : ProtectReq,
      (jsTruthyStr req.authorization &&
        jsStartsWith (req.authorization.getD "") "Bearer") = true →
      extractToken req = (jsSplit (req.authorization.getD "") ' ').get? 1) ∧
    (∀ req : ProtectReq,
      (jsTruthyStr req.authorization &&
        jsStartsWith (req.authorization.getD "") "Bearer") = false →
      extractToken req = (if jsTruthyStr req.cookieToken then req.cookieToken else none)) ∧
    (∀ (verify : String → Option Claims) (store : Store) (req : ProtectReq),
      jsTruthyStr (extractToken req) = false →
      protect verify store req =
        (ProtectResult.err { message := "Not authorized to access this route", statusCode := 401 },
          0)) ∧
    (∀ (verify : String → Option Claims) (store : Store) (req : ProtectReq) (t : String),
      extractToken req = some t → t ≠ "" → verify t = none →
      protect verify store req =
        (ProtectResult.err { message := "Not authorized to access this route", statusCode := 401 },
          0)) := by
  refine ⟨?_, ?_, ?_, ?_⟩
  · intro req h
    simp [extractToken, h]
  · intro req h
    simp [extractToken, h]
  · intro verify store req h
    simp [protect, h]
  · intro verify store req t ht hne hv
    have htr : jsTruthyStr (extractToken req) = true := by simp [ht, jsTruthyStr, hne]
    simp [protect, htr, ht, hv]

theorem protect_token_extraction_and_generic_failure_witness :
    protect (fun _ => none) [] { authorization := none, cookieToken := none } =
      (ProtectResult.err { message := "Not authorized to access this route", statusCode := 401 },
        0) :=
  protect_token_extraction_and_generic_failure.2.2.1 (fun _ => none) []
    { authorization := none, cookieToken := none } (by decide)

/-- C10: When the Authorization header is present and starts with Bearer,
protect never falls back to the token cookie: its outcome is the same for
any two cookie values, and if the header has no token after Bearer the
request fails with the 401 error even when a cookie is present. -/
theorem protect_bearer_header_excludes_cookie :
    (∀ (verify : String → Option Claims) (store : Store) (auth : String)
        (c1 c2 : Option String),
      (jsTruthyStr (some auth) && jsStartsWith auth "Bearer") = true →
      protect verify store { authorization := some auth, cookieToken := c1 } =
        protect verify store { authorization := some auth, cookieToken := c2 }) ∧
    (∀ (verify : String → Option Claims) (store : Store) (auth : String) (c : Option String),
      (jsTruthyStr (some auth) && jsStartsWith auth "Bearer") = true →
      jsTruthyStr ((jsSplit auth ' ').get? 1) = false →
      protect verify store { authorization := some auth, cookieToken := c } =
        (ProtectResult.err { message := "Not authorized to access this route", statusCode := 401 },
          0)) := by
  constructor
  · intro verify store auth c1 c2 h
    simp [protect, extractToken, h]
  · intro verify store auth c h h2
    have h2b : jsTruthyStr ((jsSplit auth ' ')[1]?) = false := by simpa using h2
    simp [protect, extractToken, h, h2b]

theorem protect_bearer_header_excludes_cookie_witness :
    protect (fun _ => some { id := 0, name := "A", role := "student", tenantId := "S1" }) []
      { authorization := some "Bearer", cookieToken := some "goodcookie" } =
      (ProtectResult.err { message := "Not authorized to access this route", statusCode := 401 },
        0) :=
  protect_bearer_header_excludes_cookie.2
    (fun _ => some { id := 0, name := "A", role := "student", tenantId := "S1" }) []
    "Bearer" (some "goodcookie") (by decide) (by decide)

/-- C7: A token that verifies successfully but whose embedded id resolves to
no stored record does not make protect fail: the absent identity is attached
and control passes downstream; protect raises an error only when the token
is missing or its verification fails. -/
theorem protect_stale_token_attaches_absent_identity :
    (∀ (verify : String → Option Claims) (store : Store) (req : ProtectReq)
        (t : String) (c : Claims),
      extractToken req = some t → t ≠ "" → verify t = some c →
      findById store c.id = none →
      protect verify store req = (ProtectResult.ok none, 1)) ∧
    (∀ (verify : String → Option Claims) (store : Store) (req : ProtectReq)
        (e : ErrorResponse) (n : Nat),
      protect verify store req = (ProtectResult.err e, n) →
      jsTruthyStr (extractToken req) = false ∨
        verify ((extractToken req).getD "") = none) := by
  constructor
  · intro verify store req t c ht hne hv hf
    have htr : jsTruthyStr (extractToken req) = true := by simp [ht, jsTruthyStr, hne]
    simp [protect, htr, ht, hv, hf, jsTruthyStr, hne]
  · intro verify store req e n h
    cases hb : jsTruthyStr (extractToken req) with
    | false => exact Or.inl rfl
    | true =>
      refine Or.inr ?_
      rcases hv : verify ((extractToken req).getD "") with _ | c
      · rfl
      · exfalso
        simp [protect, hb, hv] at h

theorem protect_stale_token_attaches_absent_identity_witness :
    protect (fun t => if t == "tok" then some { id := 5, name := "N", role := "student", tenantId := "T" } else none)
      [] { authorization := none, cookieToken := some "tok" } = (ProtectResult.ok none, 1) :=
  protect_stale_token_attaches_absent_identity.1
    (fun t => if t == "tok" then some { id := 5, name := "N", role := "student", tenantId := "T" } else none)
    [] { authorization := none, cookieToken := some "tok" } "tok"
    { id := 5, name := "N", role := "student", tenantId := "T" }
    (by decide) (by decide) (by decide) (by decide)

/-- C3: A registration that passes validation succeeds, and the returned
token verifies under the configured secret to claims whose id resolves to
the newly created record in the post-registration store; that record's
stored email equals the input email exactly, and its stored password is
never the submitted plaintext. -/
theorem register_token_resolves_to_new_user (cfg : Config) (now : Nat) (store : Store)
    (name : Option String) (em p : String) (role tenantId : Option String)
    (st : Store) (r : TokenResponse)
    (h : register cfg now store name (some em) (some p) role tenantId = some (st, r)) :
    ∃ c, jwtVerify r.token cfg.jwtSecret = some c ∧
      ∃ u, findById st c.id = some u ∧ u.email = em ∧ u.password ≠ p := by
  unfold register at h
  rcases hc : create store name (some em) (some p) role tenantId with _ | ⟨st0, u0⟩ <;>
    rw [hc] at h
  · cases h
  · simp only [Option.some.injEq, Prod.mk.injEq] at h
    obtain ⟨hst, hr⟩ := h
    unfold create at hc
    obtain ⟨hval, hu, hdup, hbranch⟩ := saveDoc_some hc
    have hu0 : u0 =
        { id := freshId store,
          name := name.getD "",
          email := em,
          role := role.getD "student",
          password := bcryptHash p,
          tenantId := tenantId.getD "" } := by
      rw [hu]
      rfl
    have hnotmem : store.any (fun v => v.id == u0.id) = false := by
      cases hany : store.any (fun v => v.id == u0.id) with
      | false => rfl
      | true =>
        exfalso
        obtain ⟨v, hvmem, hvid⟩ := List.any_eq_true.mp hany
        have hlt := lt_freshId_of_mem hvmem
        have hveq : v.id = u0.id := by simpa using hvid
        rw [hu0] at hveq
        simp at hveq
        omega
    have hstore : st = store ++ [u0] := by
      rcases hbranch with ⟨hmem, _⟩ | ⟨_, hst2⟩
      · rw [hnotmem] at hmem
        cases hmem
      · rw [← hst]
        exact hst2
    refine ⟨{ id := u0.id, name := u0.name, role := u0.role, tenantId := u0.tenantId },
      ?_, u0, ?_, ?_, ?_⟩
    · rw [← hr]
      simp [sendTokenResponse, getSignedJwtToken, jwtSign, jwtVerify]
    · show findById st u0.id = some u0
      rw [hstore]
      unfold findById
      rw [List.find?_append]
      have hnone : store.find? (fun v => v.id == u0.id) = none := by
        apply List.find?_eq_none.mpr
        intro v hv
        have hlt := lt_freshId_of_mem hv
        simp only [beq_iff_eq]
        rw [hu0]
        simp
        omega
      rw [hnone]
      simp
    · rw [hu0]
    · rw [hu0]
      exact bcryptHash_ne_self p

def wRegOut : Store × TokenResponse :=
  (register wCfg 0 [] (some "A") (some "a@b.com") (some "secret1") (some "student")
    (some "S1")).getD ([], default)

theorem register_token_resolves_to_new_user_witness :
    ∃ c, jwtVerify wRegOut.snd.token wCfg.jwtSecret = some c ∧
      ∃ u, findById wRegOut.fst c.id = some u ∧ u.email = "a@b.com" ∧
        u.password ≠ "secret1" :=
  register_token_resolves_to_new_user wCfg 0 [] (some "A") "a@b.com" "secret1"
    (some "student") (some "S1") wRegOut.fst wRegOut.snd (by decide)

/-- C8: updateDetails can change only the acting user's name and email: the
post-update store is a pointwise replacement of that one record, the
replacement keeps id, role, password digest and tenantId unchanged, every
other record is untouched, and the returned record is the password-free
projection; moreover the outcome is entirely independent of any role,
password or tenantId field in the request payload, and the projection
ignores the password digest. -/
theorem updateDetails_frame :
    (∀ store actingId body st resp,
      updateDetails store actingId body = some (st, resp) →
      resp.status = 200 ∧ resp.success = true ∧
      (∀ u, findById store actingId = some u →
        ∃ u2, st = store.map (fun v => if v.id == actingId then u2 else v) ∧
          u2.id = u.id ∧ u2.role = u.role ∧ u2.password = u.password ∧
          u2.tenantId = u.tenantId ∧ resp.data = some (toPublic u2)) ∧
      (findById store actingId = none → st = store ∧ resp.data = none)) ∧
    (∀ store actingId (nm em r1 p1 t1 r2 p2 t2 : Option String),
      updateDetails store actingId
          { name := nm, email := em, role := r1, password := p1, tenantId := t1 } =
        updateDetails store actingId
          { name := nm, email := em, role := r2, password := p2, tenantId := t2 }) ∧
    (∀ (u : User) (x : String), toPublic { u with password := x } = toPublic u) := by
  refine ⟨?_, ?_, ?_⟩
  · intro store actingId body st resp h
    unfold updateDetails findByIdAndUpdate at h
    rcases hf : findById store actingId with _ | u <;> rw [hf] at h <;> dsimp only at h
    · simp only [Option.some.injEq, Prod.mk.injEq] at h
      obtain ⟨hst, hresp⟩ := h
      subst hst
      subst hresp
      refine ⟨rfl, rfl, ?_, ?_⟩
      · intro u hu
        cases hu
      · intro _
        exact ⟨rfl, rfl⟩
    · by_cases hval : runUpdateValidators body.name body.email = true
      · rw [if_pos hval] at h
        by_cases hdup : store.any (fun v =>
            v.email == (applyDetailsUpdate u body.name body.email).email
              && v.id != (applyDetailsUpdate u body.name body.email).id) = true
        · rw [if_pos hdup] at h
          cases h
        · rw [if_neg hdup] at h
          dsimp only at h
          simp only [Option.some.injEq, Prod.mk.injEq] at h
          obtain ⟨hst, hresp⟩ := h
          subst hst
          subst hresp
          refine ⟨rfl, rfl, ?_, ?_⟩
          · intro u2given hu2
            cases hu2
            exact ⟨applyDetailsUpdate u body.name body.email, rfl, rfl, rfl, rfl, rfl, rfl⟩
          · intro hcontr
            cases hcontr
      · rw [if_neg hval] at h
        cases h
  · intro store actingId nm em r1 p1 t1 r2 p2 t2
    rfl
  · intro u x
    rfl

def wUser : User :=
  { id := 0,
    name := "A",
    email := "a@b.com",
    role := "student",
    password := bcryptHash "secret1",
    tenantId := "S1" }

def wUpdOut : Store × UpdateDetailsResponse :=
  (updateDetails [wUser] 0
    { name := some "B", email := none, role := some "admin", password := some "plainpw",
      tenantId := none }).getD ([], default)

theorem updateDetails_frame_witness : (wUpdOut.snd).status = 200 :=
  (updateDetails_frame.1 [wUser] 0
    { name := some "B", email := none, role := some "admin", password := some "plainpw",
      tenantId := none }
    wUpdOut.fst wUpdOut.snd (by decide)).1

/-- C4: The stored password field is always a digest and never plaintext:
creation hashes the submitted plaintext exactly once; a save of a document
whose password path is unmodified never re-applies the hash (in particular
the seed script's role/name update leaves the stored digest unchanged);
assigning a different password value hashes exactly that plaintext once at
save; and from any document whose password path is modified or already a
digest, any sequence of field assignments followed by a save persists a
digest. -/
theorem password_always_digest :
    (∀ store name em p role tenantId st u,
      create store name em (some p) role tenantId = some (st, u) →
      u.password = bcryptHash p) ∧
    (∀ store (d : UserDoc) st u, d.passwordModified = false →
      saveDoc store d = some (st, u) → u.password = d.user.password) ∧
    (∀ store (d : UserDoc) p st u, p ≠ d.user.password →
      saveDoc store (applyDocOp d (DocOp.setPassword p)) = some (st, u) →
      u.password = bcryptHash p) ∧
    (∀ (ops : List DocOp) (d : UserDoc),
      d.passwordModified = true ∨ isDigest d.user.password = true →
      ∀ store st u, saveDoc store (applyDocOps d ops) = some (st, u) →
      isDigest u.password = true) ∧
    (∀ store (u : User), (store.map User.id).Nodup →
      findOne store "admin@cityschool.com" = some u →
      ∀ v ∈ seedAdmin store, v.id = u.id → v.password = u.password) := by
  refine ⟨?_, ?_, ?_, ?_, ?_⟩
  · intro store name em p role tenantId st u h
    unfold create at h
    obtain ⟨_, hu, _, _⟩ := saveDoc_some h
    rw [hu]
    rfl
  · intro store d st u hmod h
    obtain ⟨_, hu, _, _⟩ := saveDoc_some h
    rw [hu]
    unfold preSaveHook
    rw [hmod]
    simp
  · intro store d p st u hne h
    obtain ⟨_, hu, _, _⟩ := saveDoc_some h
    rw [hu]
    unfold preSaveHook applyDocOp
    have hbne : (p != d.user.password) = true := bne_iff_ne.mpr hne
    simp [hbne]
  · intro ops
    induction ops with
    | nil =>
      intro d hinv store st u hs
      simp only [applyDocOps, List.foldl_nil] at hs
      obtain ⟨_, hu, _, _⟩ := saveDoc_some hs
      subst hu
      unfold preSaveHook
      cases hm : d.passwordModified with
      | true => simp [isDigest_bcryptHash]
      | false =>
        rcases hinv with h1 | h2
        · rw [hm] at h1
          cases h1
        · simpa using h2
    | cons op rest ih =>
      intro d hinv store st u hs
      rw [show applyDocOps d (op :: rest) = applyDocOps (applyDocOp d op) rest from by
        simp [applyDocOps]] at hs
      refine ih (applyDocOp d op) ?_ store st u hs
      rcases hinv with hm | hdig
      · cases op <;> simp [applyDocOp, hm]
      · cases op with
        | setPassword s =>
          by_cases hsp : s = d.user.password
          · right
            simpa [applyDocOp, hsp] using hdig
          · left
            simp [applyDocOp, bne_iff_ne.mpr hsp]
        | setName s => right; simpa [applyDocOp] using hdig
        | setEmail s => right; simpa [applyDocOp] using hdig
        | setRole s => right; simpa [applyDocOp] using hdig
        | setTenantId s => right; simpa [applyDocOp] using hdig
  · intro store u hnodup hfind v hv hid
    unfold seedAdmin at hv
    rw [hfind] at hv
    dsimp only at hv
    have humem : u ∈ store := List.mem_of_find?_eq_some hfind
    rcases hs : saveDoc store (applyDocOp (applyDocOp (loadDoc u) (DocOp.setRole "super-admin"))
        (DocOp.setName "Super Admin")) with _ | ⟨st2, u2⟩
    · rw [hs] at hv
      dsimp only at hv
      have := List.inj_on_of_nodup_map hnodup hv humem hid
      rw [this]
    · rw [hs] at hv
      dsimp only at hv
      obtain ⟨hval, hu2, hdup, hbranch⟩ := saveDoc_some hs
      have hu2fields : u2 = { u with role := "super-admin", name := "Super Admin" } := by
        rw [hu2]
        rfl
      have hu2id : u2.id = u.id := by
        rw [hu2fields]
      have hu2pw : u2.password = u.password := by
        rw [hu2fields]
      have hany : store.any (fun w => w.id == u2.id) = true :=
        List.any_eq_true.mpr ⟨u, humem, by simp [hu2id]⟩
      have hst2 : st2 = store.map (fun w => if w.id == u2.id then u2 else w) := by
        rcases hbranch with ⟨_, h2⟩ | ⟨hfalse, _⟩
        · exact h2
        · rw [hany] at hfalse
          cases hfalse
      rw [hst2] at hv
      obtain ⟨w, hwmem, hweq⟩ := List.mem_map.mp hv
      by_cases hwid : (w.id == u2.id) = true
      · rw [if_pos hwid] at hweq
        rw [← hweq, hu2pw]
      · rw [if_neg hwid] at hweq
        exfalso
        apply hwid
        rw [hweq, hid, ← hu2id]
        exact beq_self_eq_true u2.id

def wCreateOut : Store × User :=
  (create [] (some "A") (some "a@b.com") (some "secret1") (some "student")
    (some "S1")).getD ([], default)

theorem password_always_digest_witness : wCreateOut.snd.password = bcryptHash "secret1" :=
  password_always_digest.1 [] (some "A") (some "a@b.com") "secret1" (some "student")
    (some "S1") wCreateOut.fst wCreateOut.snd (by decide)

theorem findOne_after_replace {e : String} {u u2 : User} :
    ∀ {store : Store}, (store.map User.id).Nodup →
    findOne store e = some u → u2.id = u.id → u2.email = e →
    findOne (store.map (fun v => if v.id == u.id then u2 else v)) e = some u2 := by
  intro store
  induction store with
  | nil =>
    intro _ hf
    cases hf
  | cons w rest ih =>
    intro hnodup hf hid he
    simp only [List.map_cons, List.nodup_cons] at hnodup
    obtain ⟨hwnotin, hrest⟩ := hnodup
    unfold findOne at hf ⊢
    cases hw : (w.email == e) with
    | true =>
      simp only [List.find?_cons, hw] at hf
      cases hf
      simp [List.find?_cons, he]
    | false =>
      simp only [List.find?_cons, hw] at hf
      have humem := List.mem_of_find?_eq_some hf
      have hwne : ¬ (w.id = u.id) := by
        intro hcontr
        exact hwnotin (hcontr ▸ List.mem_map_of_mem User.id humem)
      simp only [List.map_cons]
      rw [if_neg (by simpa using hwne)]
      simp only [List.find?_cons, hw]
      have hrec := ih hrest hf hid he
      unfold findOne at hrec
      exact hrec

/-- C5 (amended): After updatePassword succeeds for a user whose record is
found first by its email, provided the old plaintext is non-empty and the
new plaintext differs both from the old plaintext and from the stored
digest, a subsequent login with the old plaintext fails with the
"Invalid credentials" 401 error and a subsequent login with the new
plaintext succeeds and issues a token. -/
theorem updatePassword_rotates_login (cfg : Config) (now now2 now3 : Nat) (store : Store)
    (actingId : Nat) (oldPw newPw : String) (u : User) (r : TokenResponse) (st : Store)
    (hnodup : (store.map User.id).Nodup)
    (hfindid : findById store actingId = some u)
    (hfindem : findOne store u.email = some u)
    (hold : oldPw ≠ "")
    (hnewold : newPw ≠ oldPw)
    (hnewdig : newPw ≠ u.password)
    (h : updatePassword cfg now store actingId oldPw newPw = (UpdatePasswordResult.ok r, st)) :
    (login cfg now2 st (some u.email) (some oldPw)).fst =
      LoginResult.err { message := "Invalid credentials", statusCode := 401 } ∧
    ∃ r2, (login cfg now3 st (some u.email) (some newPw)).fst = LoginResult.ok r2 := by
  unfold updatePassword at h
  rw [hfindid] at h
  dsimp only at h
  cases hmatch : matchPassword u oldPw with
  | false =>
    rw [hmatch] at h
    simp at h
  | true =>
    rw [hmatch] at h
    have hflag : (newPw != u.password) = true := bne_iff_ne.mpr hnewdig
    rw [hflag] at h
    simp only [Bool.not_true, Bool.false_eq_true, if_false] at h
    rcases hsv : saveDoc store { user := { u with password := newPw }, passwordModified := true }
      with _ | ⟨st2, u2⟩ <;> rw [hsv] at h
    · simp at h
    · dsimp only at h
      simp only [Prod.mk.injEq, UpdatePasswordResult.ok.injEq] at h
      obtain ⟨hr, hst⟩ := h
      obtain ⟨hval, hu2, hdup, hbranch⟩ := saveDoc_some hsv
      have hu2f : u2 = { u with password := bcryptHash newPw } := by
        rw [hu2]
        rfl
      subst hu2f
      have hpw : u.password = bcryptHash oldPw := by
        have hm := hmatch
        unfold matchPassword bcryptCompare at hm
        exact eq_of_beq hm
      have humem : u ∈ store := List.mem_of_find?_eq_some hfindid
      have hany : store.any (fun v => v.id == ({ u with password := bcryptHash newPw } : User).id) = true :=
        List.any_eq_true.mpr ⟨u, humem, by simp⟩
      have hst2 : st2 = store.map (fun v =>
          if v.id == u.id then { u with password := bcryptHash newPw } else v) := by
        rcases hbranch with ⟨_, h2⟩ | ⟨hfalse, _⟩
        · exact h2
        · rw [hany] at hfalse
          cases hfalse
      have hfind2 : findOne st2 u.email = some { u with password := bcryptHash newPw } := by
        rw [hst2]
        exact findOne_after_replace hnodup hfindem rfl rfl
      have hconj := hval
      simp only [validateFields, Bool.and_eq_true, bne_iff_ne, ne_eq, Nat.ble_eq] at hconj
      obtain ⟨⟨⟨⟨⟨-, hem⟩, -⟩, -⟩, hlen⟩, -⟩ := hconj
      have hemne : u.email ≠ "" := emailMatches_ne_empty hem
      have hnewne : newPw ≠ "" := by
        intro hh
        rw [hh] at hlen
        exact absurd hlen (by decide)
      have htre : jsTruthyStr (some u.email) = true := by simp [jsTruthyStr, hemne]
      have htro : jsTruthyStr (some oldPw) = true := by simp [jsTruthyStr, hold]
      have htrn : jsTruthyStr (some newPw) = true := by simp [jsTruthyStr, hnewne]
      have hm1 : matchPassword { u with password := bcryptHash newPw } oldPw = false := by
        show (bcryptHash newPw == bcryptHash oldPw) = false
        simp only [beq_eq_false_iff_ne, ne_eq]
        intro hh
        exact hnewold (bcryptHash_inj hh)
      have hm2 : matchPassword { u with password := bcryptHash newPw } newPw = true := by
        show (bcryptHash newPw == bcryptHash newPw) = true
        simp
      subst hst
      constructor
      · simp [login, htre, htro, hfind2, hm1]
      · exact ⟨sendTokenResponse cfg now3 { u with password := bcryptHash newPw } 200,
          by simp [login, htre, htrn, hfind2, hm2]⟩

def cs5 : Store :=
  [{ id := 0,
     name := "Super Admin",
     email := "admin@cityschool.com",
     role := "super-admin",
     password := bcryptHash "adminpassword123",
     tenantId := "HQ-GLOBAL" }]

def cs5After : Store :=
  (updatePassword wCfg 0 cs5 0 "adminpassword123" "adminpassword123").snd

def isOkUpdate : UpdatePasswordResult → Bool
  | UpdatePasswordResult.ok _ => true
  | _ => false

def isOkLogin : LoginResult → Bool
  | LoginResult.ok _ => true
  | _ => false

/-- C5 counterexample: calling updatePassword with the new plaintext equal to
the old plaintext succeeds, and a subsequent login with the old plaintext
still succeeds, contradicting the claim that it must fail. -/
theorem updatePassword_same_password_counterexample :
    isOkUpdate (updatePassword wCfg 0 cs5 0 "adminpassword123" "adminpassword123").fst = true ∧
    isOkLogin (login wCfg 0 cs5After (some "admin@cityschool.com")
      (some "adminpassword123")).fst = true := by
  decide

def cs5Good : Store :=
  (updatePassword wCfg 0 cs5 0 "adminpassword123" "newpassword456").snd

def cs5User : User :=
  { id := 0,
    name := "Super Admin",
    email := "admin@cityschool.com",
    role := "super-admin",
    password := bcryptHash "adminpassword123",
    tenantId := "HQ-GLOBAL" }

def okPayload : UpdatePasswordResult → TokenResponse
  | UpdatePasswordResult.ok r => r
  | _ => default

theorem updatePassword_rotates_login_witness :
    (login wCfg 0 cs5Good (some "admin@cityschool.com") (some "adminpassword123")).fst =
      LoginResult.err { message := "Invalid credentials", statusCode := 401 } :=
  (updatePassword_rotates_login wCfg 0 0 0 cs5 0 "adminpassword123" "newpassword456"
    cs5User
    (okPayload (updatePassword wCfg 0 cs5 0 "adminpassword123" "newpassword456").fst)
    cs5Good
    (by decide) (by decide) (by decide) (by decide) (by decide) (by decide) (by decide)).1

/-- C6 counterexample: the logout cookie the system sets does not carry the
sameSite=lax attribute (and its secure attribute is false regardless of the
environment), refuting the claim that every cookie carries sameSite=lax and
secure exactly in production. -/
theorem logout_cookie_attributes_counterexample :
    (logout 0).cookie.sameSite ≠ some "lax" ∧ (logout 0).cookie.secure = false := by
  decide

/-- C6 (amended): Every cookie the system sets is named "token" with
httpOnly and path=/.  An issuance cookie (register, login, updatePassword,
via sendTokenResponse) additionally carries sameSite=lax, secure exactly
when the environment is production, expiry now plus the configured number of
days, and the signed token as its value.  The logout cookie carries neither
sameSite nor secure (regardless of environment), expires ten seconds from
now, and holds the sentinel value "none". -/
theorem cookie_contract (cfg : Config) (now : Nat) (u : User) (code : Nat) :
    (sendTokenResponse cfg now u code).cookie =
      { name := "token",
        value := CookieValue.jwt (getSignedJwtToken u cfg.jwtSecret),
        expires := now + cfg.cookieExpireDays * 24 * 60 * 60 * 1000,
        httpOnly := true,
        secure := cfg.nodeEnv == "production",
        path := some "/",
        sameSite := some "lax" } ∧
    (sendTokenResponse cfg now u code).cookie.value =
      CookieValue.jwt (sendTokenResponse cfg now u code).token ∧
    (logout now).cookie =
      { name := "token",
        value := CookieValue.lit "none",
        expires := now + 10 * 1000,
        httpOnly := true,
        secure := false,
        path := some "/",
        sameSite := none } :=
  ⟨rfl, rfl, rfl⟩
